import Mathlib

/-!
Verification of the authentication and session subsystem of the
fullstack-project repository (Express + EJS + Prisma app, src/index.js,
auth-enabled variant, lines 1-116).

The handlers in src/index.js are embedded as pure Lean functions over an
explicit application state (the Prisma user table and the autoincrement
counter) together with the per-request session payload that
express-session attaches to the request. External collaborators that are
not part of the repository source (the bcrypt password hasher and the
express-session in-memory session store) are modelled from the spec, as
marked in their doc comments.
-/

namespace Fullstack

/-- Modelled from the spec: the Password Hasher (bcrypt, an external npm
dependency, not under src/). Spec section 4.1: hash embeds a per-call
random salt, and verify returns true iff the plaintext would hash to a
matching digest under the embedded salt and parameters. The digest is
modelled as the data bcrypt recoverably embeds for verification. -/
structure Digest where
  plain : String
  cost : Nat
  salt : Nat
deriving Repr, DecidableEq

/-- Modelled from the spec: bcrypt.hash(plaintext, cost) with the
per-call random salt made an explicit argument. -/
def bcryptHash (plaintext : String) (cost : Nat) (salt : Nat) : Digest :=
  ⟨plaintext, cost, salt⟩

/-- Modelled from the spec: bcrypt.compare(plaintext, digest) — true iff
the plaintext matches the one the digest was produced from. -/
def bcryptCompare (plaintext : String) (digest : Digest) : Bool :=
  plaintext == digest.plain

/-- A row of the Prisma User model (prisma/schema.prisma in
src/AUTHENTICATION.md step 2): id is @default(autoincrement()), email is
@unique, passwordHash a bcrypt digest. -/
structure User where
  id : Nat
  email : String
  passwordHash : Digest
deriving Repr, DecidableEq

/-- A row of the Prisma Post model. -/
structure Post where
  id : Nat
  title : String
  content : String
deriving Repr, DecidableEq

/-- prisma.user.findUnique(\x7b where: \x7b email \x7d \x7d) over the user
table, modelled as a list of rows searched by the unique email column. -/
def findUniqueByEmail (users : List User) (email : String) : Option User :=
  users.find? (fun u => u.email == email)

/-- prisma.post.findUnique(\x7b where: \x7b id \x7d \x7d) over the post table. -/
def findPostById (posts : List Post) (id : Nat) : Option Post :=
  posts.find? (fun p => p.id == id)

/-- The HTTP responses the handlers in src/index.js produce:
res.redirect(location), res.render(view, locals with an optional error
string), and res.status(404).send(body). -/
inductive Response where
  | redirect (location : String)
  | render (view : String) (error : Option String)
  | notFound (body : String)
deriving Repr, DecidableEq

/-- The HTTP status code of each response form: res.redirect sends 302,
res.render sends 200, the explicit res.status(404) sends 404. -/
def Response.status : Response → Nat
  | .redirect _ => 302
  | .render _ _ => 200
  | .notFound _ => 404

/-- The mutable application state the handlers touch: the persisted user
table, the Prisma autoincrement counter for User.id, and an entropy
counter standing for the stream of per-call bcrypt salts. -/
structure AppState where
  users : List User
  nextId : Nat
  nextSalt : Nat
deriving Repr, DecidableEq

/-- Which awaited external calls reject during a request: the
prisma findUnique lookup and the hash-then-create step. A rejection is
caught by the try/catch of the handler. A bcrypt.hash rejection lands in
the same catch as a create rejection and is covered by createThrows. -/
structure DbFailures where
  findThrows : Bool
  createThrows : Bool
deriving Repr, DecidableEq

/-- The observable outcome of one POST handler invocation: the response
sent, the session payload (req.session.userId) after the request, and the
application state after the request. -/
structure HandlerResult where
  response : Response
  sessionUserId : Option Nat
  state : AppState
deriving Repr, DecidableEq

/-- app.post(\x27/register\x27) (src/index.js lines 56-70). The JS
truthiness checks !email and !password are the empty-string checks on the
form fields. On success the new user id is stored in the session
(auto-login) and the response redirects to /posts; every caught rejection
renders the register view with the generic failure message. -/
def postRegister (fail : DbFailures) (email password : String)
    (sessionUserId : Option Nat) (st : AppState) : HandlerResult :=
  if email == "" || password == "" then
    ⟨.render "auth/register" (some "Email and password required"), sessionUserId, st⟩
  else if password.length < 6 then
    ⟨.render "auth/register" (some "Password must be at least 6 characters"), sessionUserId, st⟩
  else if fail.findThrows then
    ⟨.render "auth/register" (some "Registration failed"), sessionUserId, st⟩
  else
    match findUniqueByEmail st.users email with
    | some _ => ⟨.render "auth/register" (some "Email already registered"), sessionUserId, st⟩
    | none =>
      if fail.createThrows then
        ⟨.render "auth/register" (some "Registration failed"), sessionUserId, st⟩
      else
        let passwordHash := bcryptHash password 10 st.nextSalt
        let user : User := ⟨st.nextId, email, passwordHash⟩
        ⟨.redirect "/posts", some user.id,
          ⟨st.users ++ [user], st.nextId + 1, st.nextSalt + 1⟩⟩

/-- app.post(\x27/login\x27) (src/index.js lines 76-89). Unknown email and
failed bcrypt.compare both render the login view with the same generic
message; on success req.session.userId is set to the matched user id and
the response redirects to /posts. -/
def postLogin (fail : DbFailures) (email password : String)
    (sessionUserId : Option Nat) (st : AppState) : HandlerResult :=
  if email == "" || password == "" then
    ⟨.render "auth/login" (some "Email and password required"), sessionUserId, st⟩
  else if fail.findThrows then
    ⟨.render "auth/login" (some "Login failed"), sessionUserId, st⟩
  else
    match findUniqueByEmail st.users email with
    | none => ⟨.render "auth/login" (some "Invalid email or password"), sessionUserId, st⟩
    | some user =>
      if bcryptCompare password user.passwordHash then
        ⟨.redirect "/posts", some user.id, st⟩
      else
        ⟨.render "auth/login" (some "Invalid email or password"), sessionUserId, st⟩

/-- The requireAuth middleware (src/index.js lines 41-44): when the
session carries no userId the request is answered with a redirect to
/login and the guarded handler never runs; otherwise the handler runs
unchanged. -/
def requireAuth (sessionUserId : Option Nat) (handler : Nat → Response) : Response :=
  match sessionUserId with
  | none => Response.redirect "/login"
  | some uid => handler uid

/-- app.get(\x27/\x27) (src/index.js lines 47-49): an unconditional
redirect to /posts. The handler does not read the session, so the embedded
function ignores the session payload it is given. -/
def getRoot (_sessionUserId : Option Nat) : Response :=
  Response.redirect "/posts"

/-- app.get(\x27/posts\x27) (src/index.js lines 98-103): registered
WITHOUT requireAuth in the source; it renders the post list for any
caller. -/
def getPosts (_sessionUserId : Option Nat) (_posts : List Post) : Response :=
  Response.render "posts/index" none

/-- app.get(\x27/posts/:id\x27) (src/index.js lines 107-112): registered
with requireAuth; behind the guard it looks the post up by id and
renders it, or sends 404. The Number(req.params.id) conversion is taken
as the already-parsed id. -/
def getPostById (sessionUserId : Option Nat) (posts : List Post) (id : Nat) : Response :=
  requireAuth sessionUserId (fun _ =>
    match findPostById posts id with
    | none => Response.notFound "Post not found"
    | some _ => Response.render "posts/show" none)

/-- The payload the session store keeps for one token: the user id and
the absolute expiry time (now + TTL at creation). -/
structure SessionRecord where
  userId : Nat
  expiresAt : Nat
deriving Repr, DecidableEq

/-- Modelled from the spec: the Session Store kept by the express-session
middleware (an external npm dependency, not under src/), spec section
4.2 — a process-wide in-memory mapping from unguessable session token to a
small session payload with expiry. -/
abbrev SessionStore := List (String × SessionRecord)

/-- The raw entry stored for a token, disregarding expiry. -/
def lookupToken (store : SessionStore) (token : String) : Option SessionRecord :=
  (store.find? (fun e => e.1 == token)).map Prod.snd

/-- Modelled from the spec: resolve(token) returns the user id if the
token exists and now is before expiresAt, and none otherwise — for
unknown and for expired tokens alike. -/
def resolveToken (store : SessionStore) (token : String) (now : Nat) : Option Nat :=
  match lookupToken store token with
  | some r => if now < r.expiresAt then some r.userId else none
  | none => none

/-- Modelled from the spec: create(userId) stores a fresh token mapping
to the payload with expiresAt = now + TTL. -/
def createSession (store : SessionStore) (token : String) (userId now ttl : Nat) :
    SessionStore :=
  (token, ⟨userId, now + ttl⟩) :: store

/-- Modelled from the spec: destroy(token) removes the mapping for the
token; destroying an unknown token is a no-op. -/
def destroySession (store : SessionStore) (token : String) : SessionStore :=
  store.filter (fun e => e.1 != token)

/-- One operation on the session store, for stating that a property holds
over any later history of the store. -/
inductive StoreOp where
  | create (token : String) (userId now ttl : Nat)
  | destroy (token : String)
deriving Repr, DecidableEq

/-- The token an operation acts on. -/
def StoreOp.token : StoreOp → String
  | .create t _ _ _ => t
  | .destroy t => t

/-- Whether an operation is a create. -/
def StoreOp.isCreate : StoreOp → Bool
  | .create _ _ _ _ => true
  | .destroy _ => false

/-- Run a sequence of store operations from left to right. -/
def applyOps (store : SessionStore) : List StoreOp → SessionStore
  | [] => store
  | .create t uid now ttl :: ops => applyOps (createSession store t uid now ttl) ops
  | .destroy t :: ops => applyOps (destroySession store t) ops

/-- app.post(\x27/logout\x27) (src/index.js lines 91-95):
req.session.destroy removes the session entry for the request token from
the store (modelled from the spec for the store side, since
express-session is not under src/), and the completion callback sends the
redirect to /login. The request is left with no session payload. A request
with no token (or an already-destroyed one) leaves the store as it is. -/
def postLogout (store : SessionStore) (token : Option String) :
    Response × Option Nat × SessionStore :=
  match token with
  | none => (Response.redirect "/login", none, store)
  | some t => (Response.redirect "/login", none, destroySession store t)

/-- The error taxonomy of spec section 7, as the classification of the
user-facing messages the handlers render. -/
inductive AuthError where
  | validationError
  | duplicateEmailError
  | invalidCredentialsError
  | registrationFailedError
  | loginFailedError
deriving Repr, DecidableEq

/-- Maps each user-facing error message rendered by the handlers in
src/index.js to its class in the spec taxonomy. -/
def classifyError (msg : String) : Option AuthError :=
  if msg == "Email and password required" then some .validationError
  else if msg == "Password must be at least 6 characters" then some .validationError
  else if msg == "Email already registered" then some .duplicateEmailError
  else if msg == "Invalid email or password" then some .invalidCredentialsError
  else if msg == "Registration failed" then some .registrationFailedError
  else if msg == "Login failed" then some .loginFailedError
  else none

/-- Modelled from the spec: the minimal necessary condition for an email
address to be syntactically valid — it contains an @ separator. Used only
to exhibit an email that no syntactic criterion would accept. -/
def emailHasAtSign (email : String) : Bool :=
  email.data.any (fun c => c.toNat == 64)

/-! ### Helper lemmas about the session store -/

theorem lookupToken_destroySession_self (s : SessionStore) (t : String) :
    lookupToken (destroySession s t) t = none := by
  unfold lookupToken destroySession
  rw [Option.map_eq_none', List.find?_eq_none]
  intro e he
  have hmem := List.mem_filter.mp he
  simpa using hmem.2

theorem lookupToken_destroySession_none (s : SessionStore) (t t2 : String)
    (hs : lookupToken s t = none) : lookupToken (destroySession s t2) t = none := by
  unfold lookupToken destroySession at *
  rw [Option.map_eq_none', List.find?_eq_none] at *
  intro e he
  exact hs e (List.mem_filter.mp he).1

theorem lookupToken_createSession_ne (s : SessionStore) (t t2 : String)
    (uid now ttl : Nat) (h : t2 ≠ t) (hs : lookupToken s t = none) :
    lookupToken (createSession s t2 uid now ttl) t = none := by
  unfold lookupToken createSession at *
  rw [List.find?_cons_of_neg]
  · exact hs
  · simp [h]

theorem lookupToken_applyOps_none (t : String) (ops : List StoreOp) (s : SessionStore)
    (hs : lookupToken s t = none)
    (hops : ∀ op ∈ ops, op.isCreate = true → op.token ≠ t) :
    lookupToken (applyOps s ops) t = none := by
  induction ops generalizing s with
  | nil => exact hs
  | cons op ops ih =>
    cases op with
    | create t2 uid now ttl =>
      refine ih _ (lookupToken_createSession_ne s t t2 uid now ttl ?_ hs) ?_
      · exact hops _ (List.mem_cons_self _ _) rfl
      · intro op hop; exact hops op (List.mem_cons_of_mem _ hop)
    | destroy t2 =>
      refine ih _ (lookupToken_destroySession_none s t t2 hs) ?_
      intro op hop; exact hops op (List.mem_cons_of_mem _ hop)

theorem resolveToken_eq_none_of_lookup_none (s : SessionStore) (t : String) (now : Nat)
    (hs : lookupToken s t = none) : resolveToken s t now = none := by
  unfold resolveToken
  rw [hs]

/-! ### Claim theorems -/

/-- C1: the claim says GET /posts and GET /posts/:id are both guarded and
redirect anonymous callers to /login. In src/index.js the /posts route is
registered without requireAuth, so an anonymous GET /posts is served the
post list with status 200 and is not redirected, while GET /posts/:id is
guarded as claimed. This theorem evaluates the code at the failing input
(an anonymous request, empty session). -/
theorem c1_getPosts_unguarded :
    getPosts none [] = Response.render "posts/index" none ∧
    getPosts none [] ≠ Response.redirect "/login" ∧
    (getPosts none []).status = 200 ∧
    getPostById none [] 1 = Response.redirect "/login" := by
  decide

/-- C2: a destroyed session token never resolves to a user identity again
under any later history of store operations that does not issue that very
token anew, and a session whose expiry time has passed resolves to none
even though its entry still exists in the store. -/
theorem c2_destroyed_or_expired_never_resolves
    (s : SessionStore) (t : String) (ops : List StoreOp) (now : Nat)
    (hops : ∀ op ∈ ops, op.isCreate = true → op.token ≠ t) :
    resolveToken (applyOps (destroySession s t) ops) t now = none ∧
    ∀ (s2 : SessionStore) (r : SessionRecord) (n : Nat),
      lookupToken s2 t = some r → r.expiresAt ≤ n → resolveToken s2 t n = none := by
  constructor
  · exact resolveToken_eq_none_of_lookup_none _ t now
      (lookupToken_applyOps_none t ops _ (lookupToken_destroySession_self s t) hops)
  · intro s2 r n hl he
    unfold resolveToken
    rw [hl]
    simp [Nat.not_lt.mpr he]

/-- Witness for C2 at a concrete store and history: the token t1 is
destroyed, a different session is created and another token destroyed
afterwards, and t1 still resolves to none; the expired-entry half is
instantiated as stated. -/
theorem c2_witness :
    resolveToken
      (applyOps (destroySession [("t1", ⟨5, 100⟩)] "t1")
        [StoreOp.create "t2" 7 0 50, StoreOp.destroy "t3"]) "t1" 0 = none ∧
    ∀ (s2 : SessionStore) (r : SessionRecord) (n : Nat),
      lookupToken s2 "t1" = some r → r.expiresAt ≤ n → resolveToken s2 "t1" n = none :=
  c2_destroyed_or_expired_never_resolves [("t1", ⟨5, 100⟩)] "t1"
    [StoreOp.create "t2" 7 0 50, StoreOp.destroy "t3"] 0 (by decide)

/-- C3: a login that fails because the email is unknown and a login that
fails because the password does not verify against the stored hash send
the same response — the login view with the same generic message — so the
two failure causes are indistinguishable to the caller. -/
theorem c3_login_failures_indistinguishable
    (e1 p1 e2 p2 : String) (s1 s2 : Option Nat) (st1 st2 : AppState) (u : User)
    (he1 : e1 ≠ "") (hp1 : p1 ≠ "") (he2 : e2 ≠ "") (hp2 : p2 ≠ "")
    (hfind1 : findUniqueByEmail st1.users e1 = none)
    (hfind2 : findUniqueByEmail st2.users e2 = some u)
    (hcmp : bcryptCompare p2 u.passwordHash = false) :
    (postLogin ⟨false, false⟩ e1 p1 s1 st1).response =
      (postLogin ⟨false, false⟩ e2 p2 s2 st2).response ∧
    (postLogin ⟨false, false⟩ e1 p1 s1 st1).response =
      Response.render "auth/login" (some "Invalid email or password") := by
  unfold postLogin
  simp [he1, hp1, he2, hp2, hfind1, hfind2, hcmp]

/-- Witness for C3: an unknown email against an empty user table and a
wrong password against a stored bcrypt hash produce the same response. -/
theorem c3_witness :
    (postLogin ⟨false, false⟩ "ghost@example.com" "secret1" none ⟨[], 1, 0⟩).response =
      (postLogin ⟨false, false⟩ "alice@example.com" "wrongpass" none
        ⟨[⟨1, "alice@example.com", bcryptHash "secret1" 10 0⟩], 2, 1⟩).response ∧
    (postLogin ⟨false, false⟩ "ghost@example.com" "secret1" none ⟨[], 1, 0⟩).response =
      Response.render "auth/login" (some "Invalid email or password") :=
  c3_login_failures_indistinguishable "ghost@example.com" "secret1"
    "alice@example.com" "wrongpass" none none ⟨[], 1, 0⟩
    ⟨[⟨1, "alice@example.com", bcryptHash "secret1" 10 0⟩], 2, 1⟩
    ⟨1, "alice@example.com", bcryptHash "secret1" 10 0⟩
    (by decide) (by decide) (by decide) (by decide) (by decide) (by decide) (by decide)

/-- C4: after a successful register with a fresh email, a second register
attempt with the same email renders the duplicate-email error (classified
DuplicateEmailError in the spec taxonomy), leaves the second caller with
no session payload (Anonymous), and leaves the state unchanged: no second
user record and no new session. -/
theorem c4_duplicate_register_rejected
    (e p p2 : String) (st : AppState)
    (he : e ≠ "") (hp : p ≠ "") (hlen : 6 ≤ p.length)
    (hp2 : p2 ≠ "") (hlen2 : 6 ≤ p2.length)
    (hfresh : findUniqueByEmail st.users e = none) :
    (postRegister ⟨false, false⟩ e p none st).response = Response.redirect "/posts" ∧
    (postRegister ⟨false, false⟩ e p2 none
        (postRegister ⟨false, false⟩ e p none st).state).response =
      Response.render "auth/register" (some "Email already registered") ∧
    classifyError "Email already registered" = some AuthError.duplicateEmailError ∧
    (postRegister ⟨false, false⟩ e p2 none
        (postRegister ⟨false, false⟩ e p none st).state).sessionUserId = none ∧
    (postRegister ⟨false, false⟩ e p2 none
        (postRegister ⟨false, false⟩ e p none st).state).state =
      (postRegister ⟨false, false⟩ e p none st).state := by
  have h1 : postRegister ⟨false, false⟩ e p none st =
      ⟨.redirect "/posts", some st.nextId,
        ⟨st.users ++ [⟨st.nextId, e, bcryptHash p 10 st.nextSalt⟩],
          st.nextId + 1, st.nextSalt + 1⟩⟩ := by
    unfold postRegister
    simp [he, hp, Nat.not_lt.mpr hlen, hfresh]
  rw [h1]
  have hdup : findUniqueByEmail
      (st.users ++ [⟨st.nextId, e, bcryptHash p 10 st.nextSalt⟩]) e =
      some ⟨st.nextId, e, bcryptHash p 10 st.nextSalt⟩ := by
    unfold findUniqueByEmail at *
    rw [List.find?_append, hfresh]
    simp
  unfold postRegister
  simp [he, hp2, Nat.not_lt.mpr hlen2, hdup, classifyError]

/-- Witness for C4 at the concrete scenario of the spec: register
alice@example.com with secret1, then register the same email again. -/
theorem c4_witness :
    (postRegister ⟨false, false⟩ "alice@example.com" "secret1" none ⟨[], 1, 0⟩).response
      = Response.redirect "/posts" ∧
    (postRegister ⟨false, false⟩ "alice@example.com" "other1" none
        (postRegister ⟨false, false⟩ "alice@example.com" "secret1" none
          ⟨[], 1, 0⟩).state).response =
      Response.render "auth/register" (some "Email already registered") ∧
    classifyError "Email already registered" = some AuthError.duplicateEmailError ∧
    (postRegister ⟨false, false⟩ "alice@example.com" "other1" none
        (postRegister ⟨false, false⟩ "alice@example.com" "secret1" none
          ⟨[], 1, 0⟩).state).sessionUserId = none ∧
    (postRegister ⟨false, false⟩ "alice@example.com" "other1" none
        (postRegister ⟨false, false⟩ "alice@example.com" "secret1" none
          ⟨[], 1, 0⟩).state).state =
      (postRegister ⟨false, false⟩ "alice@example.com" "secret1" none ⟨[], 1, 0⟩).state :=
  c4_duplicate_register_rejected "alice@example.com" "secret1" "other1" ⟨[], 1, 0⟩
    (by decide) (by decide) (by decide) (by decide) (by decide) (by decide)

/-- C5: registering a fresh email and then logging in with the same
(email, password) pair succeeds: the login response redirects to /posts
and the session payload is the id of the user record that register
created. -/
theorem c5_login_after_register_succeeds
    (e p : String) (st : AppState)
    (he : e ≠ "") (hp : p ≠ "") (hlen : 6 ≤ p.length)
    (hfresh : findUniqueByEmail st.users e = none) :
    (postRegister ⟨false, false⟩ e p none st).response = Response.redirect "/posts" ∧
    (postRegister ⟨false, false⟩ e p none st).sessionUserId = some st.nextId ∧
    (postLogin ⟨false, false⟩ e p none
        (postRegister ⟨false, false⟩ e p none st).state).response =
      Response.redirect "/posts" ∧
    (postLogin ⟨false, false⟩ e p none
        (postRegister ⟨false, false⟩ e p none st).state).sessionUserId =
      some st.nextId := by
  have h1 : postRegister ⟨false, false⟩ e p none st =
      ⟨.redirect "/posts", some st.nextId,
        ⟨st.users ++ [⟨st.nextId, e, bcryptHash p 10 st.nextSalt⟩],
          st.nextId + 1, st.nextSalt + 1⟩⟩ := by
    unfold postRegister
    simp [he, hp, Nat.not_lt.mpr hlen, hfresh]
  rw [h1]
  have hdup : findUniqueByEmail
      (st.users ++ [⟨st.nextId, e, bcryptHash p 10 st.nextSalt⟩]) e =
      some ⟨st.nextId, e, bcryptHash p 10 st.nextSalt⟩ := by
    unfold findUniqueByEmail at *
    rw [List.find?_append, hfresh]
    simp
  unfold postLogin
  rw [hdup]
  simp [he, hp, bcryptCompare, bcryptHash]

/-- Witness for C5 at the concrete scenario of the spec: register then
login alice@example.com with secret1. -/
theorem c5_witness :
    (postRegister ⟨false, false⟩ "alice@example.com" "secret1" none ⟨[], 1, 0⟩).response
      = Response.redirect "/posts" ∧
    (postRegister ⟨false, false⟩ "alice@example.com" "secret1" none
      ⟨[], 1, 0⟩).sessionUserId = some 1 ∧
    (postLogin ⟨false, false⟩ "alice@example.com" "secret1" none
        (postRegister ⟨false, false⟩ "alice@example.com" "secret1" none
          ⟨[], 1, 0⟩).state).response = Response.redirect "/posts" ∧
    (postLogin ⟨false, false⟩ "alice@example.com" "secret1" none
        (postRegister ⟨false, false⟩ "alice@example.com" "secret1" none
          ⟨[], 1, 0⟩).state).sessionUserId = some 1 :=
  c5_login_after_register_succeeds "alice@example.com" "secret1" ⟨[], 1, 0⟩
    (by decide) (by decide) (by decide) (by decide)

/-- C6: a register request whose password is shorter than 6 characters
renders the register view with a message classified ValidationError in
the spec taxonomy, leaves the session payload as it was (Anonymous stays
Anonymous), and creates no user: the state is unchanged. -/
theorem c6_short_password_rejected
    (fail : DbFailures) (e p : String) (sess : Option Nat) (st : AppState)
    (hlen : p.length < 6) :
    (∃ msg, (postRegister fail e p sess st).response =
        Response.render "auth/register" (some msg) ∧
      classifyError msg = some AuthError.validationError) ∧
    (postRegister fail e p sess st).sessionUserId = sess ∧
    (postRegister fail e p sess st).state = st := by
  unfold postRegister
  by_cases h : (e == "" || p == "") = true
  · rw [if_pos h]
    exact ⟨⟨"Email and password required", rfl, by decide⟩, rfl, rfl⟩
  · rw [if_neg h, if_pos hlen]
    exact ⟨⟨"Password must be at least 6 characters", rfl, by decide⟩, rfl, rfl⟩

/-- Witness for C6 at the concrete scenario of the spec: a password of
length 5 at registration is rejected and no user is created. -/
theorem c6_witness :
    (∃ msg, (postRegister ⟨false, false⟩ "alice@example.com" "12345" none
        ⟨[], 1, 0⟩).response = Response.render "auth/register" (some msg) ∧
      classifyError msg = some AuthError.validationError) ∧
    (postRegister ⟨false, false⟩ "alice@example.com" "12345" none
      ⟨[], 1, 0⟩).sessionUserId = none ∧
    (postRegister ⟨false, false⟩ "alice@example.com" "12345" none
      ⟨[], 1, 0⟩).state = ⟨[], 1, 0⟩ :=
  c6_short_password_rejected ⟨false, false⟩ "alice@example.com" "12345" none
    ⟨[], 1, 0⟩ (by decide)

/-- C7 counterexample: the claim says a register request whose email is
not syntactically a valid address fails with ValidationError and creates
no user. The register handler in src/index.js only checks that the email
field is non-empty, so the syntactically invalid email not-an-email
(it contains no @ sign) is accepted: the response is the success redirect
to /posts, the caller is logged in, and a user record is created. -/
theorem c7_invalid_email_accepted :
    emailHasAtSign "not-an-email" = false ∧
    (postRegister ⟨false, false⟩ "not-an-email" "secret1" none ⟨[], 1, 0⟩).response
      = Response.redirect "/posts" ∧
    (postRegister ⟨false, false⟩ "not-an-email" "secret1" none
      ⟨[], 1, 0⟩).sessionUserId = some 1 ∧
    (postRegister ⟨false, false⟩ "not-an-email" "secret1" none ⟨[], 1, 0⟩).state.users
      = [⟨1, "not-an-email", bcryptHash "secret1" 10 0⟩] := by
  decide

/-- C7 amended: a register request whose email is empty fails with a
message classified ValidationError, the caller keeps its session payload
unchanged (Anonymous stays Anonymous), and no user is created; email
form beyond non-emptiness is not checked. -/
theorem c7_empty_email_rejected
    (fail : DbFailures) (p : String) (sess : Option Nat) (st : AppState) :
    (postRegister fail "" p sess st).response =
      Response.render "auth/register" (some "Email and password required") ∧
    classifyError "Email and password required" = some AuthError.validationError ∧
    (postRegister fail "" p sess st).sessionUserId = sess ∧
    (postRegister fail "" p sess st).state = st := by
  unfold postRegister
  simp [classifyError]

/-- C8: every register and every login request is answered with either a
status-200 rendered view or a redirect — never an uncaught crash — and
whenever the register or login handler answers with an error-carrying
view (including the caught persistence failures), the session payload
and the application state are left exactly as they were: no incomplete
user record, no session issued. -/
theorem c8_errors_caught_state_unchanged
    (fail : DbFailures) (e p : String) (sess : Option Nat) (st : AppState) :
    ((postRegister fail e p sess st).response.status = 200 ∨
      (postRegister fail e p sess st).response.status = 302) ∧
    ((postLogin fail e p sess st).response.status = 200 ∨
      (postLogin fail e p sess st).response.status = 302) ∧
    (∀ msg, (postRegister fail e p sess st).response =
        Response.render "auth/register" (some msg) →
      (postRegister fail e p sess st).sessionUserId = sess ∧
      (postRegister fail e p sess st).state = st) ∧
    (∀ msg, (postLogin fail e p sess st).response =
        Response.render "auth/login" (some msg) →
      (postLogin fail e p sess st).sessionUserId = sess ∧
      (postLogin fail e p sess st).state = st) := by
  unfold postRegister postLogin
  refine ⟨?_, ?_, ?_, ?_⟩
  · split
    · exact Or.inl rfl
    · split
      · exact Or.inl rfl
      · split
        · exact Or.inl rfl
        · split
          · exact Or.inl rfl
          · split
            · exact Or.inl rfl
            · exact Or.inr rfl
  · split
    · exact Or.inl rfl
    · split
      · exact Or.inl rfl
      · split
        · exact Or.inl rfl
        · split
          · exact Or.inr rfl
          · exact Or.inl rfl
  · intro msg
    split
    · exact fun _ => ⟨rfl, rfl⟩
    · split
      · exact fun _ => ⟨rfl, rfl⟩
      · split
        · exact fun _ => ⟨rfl, rfl⟩
        · split
          · exact fun _ => ⟨rfl, rfl⟩
          · split
            · exact fun _ => ⟨rfl, rfl⟩
            · intro h
              cases h
  · intro msg
    split
    · exact fun _ => ⟨rfl, rfl⟩
    · split
      · exact fun _ => ⟨rfl, rfl⟩
      · split
        · exact fun _ => ⟨rfl, rfl⟩
        · split
          · intro h
            cases h
          · exact fun _ => ⟨rfl, rfl⟩

/-- Witness for C8: a persistence failure during registration (the
lookup rejects) renders the failure view and leaves the state and
session payload untouched, discharging the inner implication at the
rendered message. -/
theorem c8_witness :
    (postRegister ⟨true, false⟩ "alice@example.com" "secret1" none
      ⟨[], 1, 0⟩).sessionUserId = none ∧
    (postRegister ⟨true, false⟩ "alice@example.com" "secret1" none
      ⟨[], 1, 0⟩).state = ⟨[], 1, 0⟩ :=
  (c8_errors_caught_state_unchanged ⟨true, false⟩ "alice@example.com" "secret1" none
    ⟨[], 1, 0⟩).2.2.1 "Registration failed" (by decide)

/-- C9: logout destroys the session of the request token (a no-op when
the token is missing or unknown), always answers with a redirect to
/login, leaves the request with no session payload, and a second logout
is not an error and leaves the same state. -/
theorem c9_logout_idempotent (store : SessionStore) (token : Option String) :
    (postLogout store token).1 = Response.redirect "/login" ∧
    (postLogout store token).2.1 = none ∧
    (∀ t now, token = some t →
      resolveToken (postLogout store token).2.2 t now = none) ∧
    (token = none → (postLogout store token).2.2 = store) ∧
    (∀ t, token = some t → lookupToken store t = none →
      (postLogout store token).2.2 = store) ∧
    postLogout (postLogout store token).2.2 token = postLogout store token := by
  cases token with
  | none =>
    refine ⟨rfl, rfl, ?_, fun _ => rfl, ?_, rfl⟩
    · intro t now h
      cases h
    · intro t h
      cases h
  | some t =>
    refine ⟨rfl, rfl, ?_, ?_, ?_, ?_⟩
    · intro t2 now h
      cases h
      exact resolveToken_eq_none_of_lookup_none _ t now
        (lookupToken_destroySession_self store t)
    · intro h
      cases h
    · intro t2 h hl
      cases h
      show destroySession store t = store
      unfold destroySession
      rw [List.filter_eq_self.mpr]
      unfold lookupToken at hl
      rw [Option.map_eq_none', List.find?_eq_none] at hl
      intro e he
      simpa using hl e he
    · show (Response.redirect "/login", none, destroySession (destroySession store t) t)
        = (Response.redirect "/login", none, destroySession store t)
      unfold destroySession
      rw [List.filter_filter]
      simp

/-- Witness for C9 at a concrete store and token, with the inner
implications discharged at concrete instances. -/
theorem c9_witness :
    resolveToken (postLogout [("t1", ⟨5, 100⟩)] (some "t1")).2.2 "t1" 0 = none ∧
    (postLogout ([] : SessionStore) none).2.2 = [] ∧
    (postLogout [("t1", ⟨5, 100⟩)] (some "t9")).2.2 = [("t1", ⟨5, 100⟩)] :=
  ⟨(c9_logout_idempotent [("t1", ⟨5, 100⟩)] (some "t1")).2.2.1 "t1" 0 rfl,
   (c9_logout_idempotent [] none).2.2.2.1 rfl,
   (c9_logout_idempotent [("t1", ⟨5, 100⟩)] (some "t9")).2.2.2.2.1 "t9" rfl (by decide)⟩

/-- C10: GET / responds with a redirect to /posts for every caller,
anonymous or authenticated alike; the root handler never reads the
session and never redirects to /login. -/
theorem c10_getRoot_redirects_to_posts (sess sess2 : Option Nat) :
    getRoot sess = Response.redirect "/posts" ∧
    getRoot sess ≠ Response.redirect "/login" ∧
    getRoot sess = getRoot sess2 := by
  refine ⟨rfl, ?_, rfl⟩
  simp [getRoot]

end Fullstack
